import Mathlib

/-!
Verification of the Weave logging integration (`litellm/integrations/weave.py`
and `litellm/types/integrations/weave.py`).

Python dictionaries are modelled as association lists `List (String × JVal)`
(insertion-ordered, as Python dicts are); JSON-like Python values are modelled
by the inductive `JVal`.  Python / pydantic exceptions are modelled by the
inductive `PyErr`, and fallible code returns `Except PyErr _`.
-/

/-- A JSON-like Python value: `None`, `bool`, numbers (modelled as integers —
no float arithmetic appears in the code under verification), strings, lists
and dicts. -/
inductive JVal where
  | null
  | bool (b : Bool)
  | num (n : Int)
  | str (s : String)
  | arr (xs : List JVal)
  | obj (kvs : List (String × JVal))

/-- Errors raised by the embedded code.  `attributeError` and `typeError` model
the built-in Python exceptions of those names; `validationError` models a
pydantic `ValidationError` raised when constructing a `BaseModel`;
`exceptionMsg` models a `raise Exception("...")` with the given message.
`missingDataError` is the typed error named by the specification; no
corresponding exception type exists anywhere in the source — the constructor is
present only so that statements about the error named by the spec can be written
down and compared with what the code actually raises. -/
inductive PyErr where
  | attributeError
  | typeError
  | validationError
  | exceptionMsg (msg : String)
  | missingDataError
deriving DecidableEq, Repr

/-- Decides whether `pat` is a leading segment of `s` (character lists). -/
def charsHasPre : List Char → List Char → Bool
  | [], _ => true
  | _ :: _, [] => false
  | a :: as, b :: bs => a == b && charsHasPre as bs

/-- Decides whether `pat` occurs contiguously inside `s` (character lists). -/
def charsHasSub (pat : List Char) : List Char → Bool
  | [] => charsHasPre pat []
  | c :: rest => charsHasPre pat (c :: rest) || charsHasSub pat rest

/-- The Python substring test `pat in s` on strings. -/
def pyIn (pat s : String) : Bool := charsHasSub pat.toList s.toList

/-- Python truthiness of a value (`if not x: ...`). -/
def pyFalsy : JVal → Bool
  | JVal.null => true
  | JVal.bool b => !b
  | JVal.num n => n == 0
  | JVal.str s => s == ""
  | JVal.arr xs => xs.isEmpty
  | JVal.obj kvs => kvs.isEmpty

/-- The Python identity test `v is None`. -/
def JVal.isNull : JVal → Bool
  | JVal.null => true
  | _ => false

/-- Python `len(v)`: defined for strings, lists and dicts, `TypeError`
otherwise. -/
def pyLen : JVal → Except PyErr Nat
  | JVal.str s => Except.ok s.length
  | JVal.arr xs => Except.ok xs.length
  | JVal.obj kvs => Except.ok kvs.length
  | _ => Except.error PyErr.typeError

/-- The list of keys of a dict. -/
def keys (l : List (String × JVal)) : List String := l.map Prod.fst

/-- The dict left behind by Python `d.pop(k, None)`: every entry with key `k`
is removed.  (A Python dict holds at most one entry per key; on such lists
this is exactly `pop`.) -/
def dpopList (l : List (String × JVal)) (k : String) : List (String × JVal) :=
  l.filter (fun p => p.1 != k)

/-- Python `d[k] = v`: replace the value at `k` in place when the key is
present, append the entry otherwise. -/
def dictSet (l : List (String × JVal)) (k : String) (v : JVal) :
    List (String × JVal) :=
  if l.any (fun p => p.1 == k) then
    l.map (fun p => if p.1 = k then (k, v) else p)
  else l ++ [(k, v)]

/-! ### `litellm/types/integrations/weave.py` -/

/-- `WeaveCredentials(BaseModel)`: all three fields are annotated `str`
(required, non-`None`). -/
structure WeaveCredentials where
  wandb_api_key : String
  wandb_entity : String
  weave_project : String

/-- Pydantic validation performed by `WeaveCredentials(...)`: each argument
must be an actual string; `None` for any field raises `ValidationError`. -/
def mkWeaveCredentials (api_key : Option String) (entity : Option String)
    (project : Option String) : Except PyErr WeaveCredentials :=
  match api_key, entity, project with
  | some a, some e, some p => Except.ok ⟨a, e, p⟩
  | _, _, _ => Except.error PyErr.validationError

/-- `WeaveLogData(BaseModel)`: `standard_logging_data : Dict[str, Any]`,
`call_type : str`, `error_str : str`, `error_information : Dict[str, str]`,
`response : Dict[str, Any]` — all required and non-`None`. -/
structure WeaveLogData where
  standard_logging_data : List (String × JVal)
  call_type : String
  error_str : String
  error_information : List (String × JVal)
  response : List (String × JVal)

/-- Checks that every value of the dict is a string (pydantic validation of a
`Dict[str, str]` field). -/
def allStringValues (l : List (String × JVal)) : Bool :=
  l.all (fun p => match p.2 with | JVal.str _ => true | _ => false)

/-! ### `litellm/integrations/weave.py` -/

/-- Inner function `_remove_keys_with_tokens` of `_prepare_data`:
a dict comprehension keeping exactly the entries whose key does not contain
the substring "token". -/
def _remove_keys_with_tokens (data : List (String × JVal)) :
    List (String × JVal) :=
  data.filter (fun p => !(pyIn "token" p.1))

/-- The `timing_keys` list of the inner function `_remove_timing_keys`. -/
def timing_keys : List String :=
  ["startTime", "endTime", "completionStartTime", "response_time"]

/-- Inner function `_remove_timing_keys` of `_prepare_data`:
`{k: v for k, v in data.items() if k not in timing_keys}`. -/
def _remove_timing_keys (data : List (String × JVal)) :
    List (String × JVal) :=
  data.filter (fun p => !(timing_keys.contains p.1))

/-- Inner function `_redact_and_clean_metadata` of `_prepare_data`.  The
argument is the result of `standard_logging_data.pop("metadata", None)`, hence
an `Option`.  `if not metadata: return {}` covers both `None` and falsy
values; a truthy non-dict raises `AttributeError` at `.items()`. -/
def _redact_and_clean_metadata (metadata : Option JVal) :
    Except PyErr (List (String × JVal)) :=
  match metadata with
  | none => Except.ok []
  | some v =>
    if pyFalsy v then Except.ok []
    else
      match v with
      | JVal.obj m =>
        let redacted_metadata := m.filter (fun p => !(pyIn "_api_" p.1))
        let cleaned_metadata := redacted_metadata.filter (fun p => !(p.2.isNull))
        match pyLen ((List.lookup "applied_guardrails" cleaned_metadata).getD (JVal.arr [])) with
        | Except.error e => Except.error e
        | Except.ok n =>
          if n == 0 then Except.ok (dpopList cleaned_metadata "applied_guardrails")
          else Except.ok cleaned_metadata
      | _ => Except.error PyErr.attributeError

/-- Inner function `_clean_model_map_information` of `_prepare_data`.  The two
successive assignments to `cleaned_model_map_info["model_map_value"]` (drop
`None` values, then drop keys containing `"support"`) are composed; a present
`model_map_value` that is not a dict raises `AttributeError` at `.items()`. -/
def _clean_model_map_information (model_map_info : Option JVal) :
    Except PyErr (List (String × JVal)) :=
  match model_map_info with
  | none => Except.ok []
  | some v =>
    if pyFalsy v then Except.ok []
    else
      match v with
      | JVal.obj m =>
        let cleaned_model_map_info := m.filter (fun p => !(p.2.isNull))
        match List.lookup "model_map_value" cleaned_model_map_info with
        | some (JVal.obj mv) =>
          let mv1 := mv.filter (fun p => !(p.2.isNull))
          let mv2 := mv1.filter (fun p => !(pyIn "support" p.1))
          Except.ok (dictSet cleaned_model_map_info "model_map_value" (JVal.obj mv2))
        | some _ => Except.error PyErr.attributeError
        | none => Except.ok cleaned_model_map_info
      | _ => Except.error PyErr.attributeError

/-- The result of the body of `_prepare_data` just before the
`WeaveLogData(...)` construction: the cleaned `standard_logging_data` dict and
the values bound to `call_type`, `error_str`, `error_information` and
`llm_response`. -/
structure SLDResult where
  cleaned : List (String × JVal)
  call_type : Option JVal
  error_str : Option JVal
  error_information : Option JVal
  response : Option JVal

/-- Stage 1 of `_prepare_data`: `_remove_keys_with_tokens(standard_logging_data)`. -/
def coreS1 (sld0 : List (String × JVal)) : List (String × JVal) :=
  _remove_keys_with_tokens sld0

/-- Stage 3 of `_prepare_data`: after `pop("stream", None)` and
`_remove_timing_keys`. -/
def coreS3 (sld0 : List (String × JVal)) : List (String × JVal) :=
  _remove_timing_keys (dpopList (coreS1 sld0) "stream")

/-- Stage 5 of `_prepare_data`: after `pop("metadata", None)` and
`standard_logging_data["metadata"] = metadata` with cleaned metadata `md`. -/
def coreS5 (sld0 : List (String × JVal)) (md : List (String × JVal)) :
    List (String × JVal) :=
  dictSet (dpopList (coreS3 sld0) "metadata") "metadata" (JVal.obj md)

/-- Stage 6 of `_prepare_data`: after `pop("hidden_params", None)`. -/
def coreS6 (sld0 : List (String × JVal)) (md : List (String × JVal)) :
    List (String × JVal) :=
  dpopList (coreS5 sld0 md) "hidden_params"

/-- Stage 8 of `_prepare_data`: after `pop("model_map_information", None)` and
`standard_logging_data["model_map_information"] = model_map_information` with
cleaned value `mm`. -/
def coreS8 (sld0 : List (String × JVal)) (md mm : List (String × JVal)) :
    List (String × JVal) :=
  dictSet (dpopList (coreS6 sld0 md) "model_map_information")
    "model_map_information" (JVal.obj mm)

/-- Stage 12 of `_prepare_data`: after the pops of `error_str`,
`error_information`, `response_cost_failure_debug_info` and
`guardrail_information`. -/
def coreS12 (sld0 : List (String × JVal)) (md mm : List (String × JVal)) :
    List (String × JVal) :=
  dpopList (dpopList (dpopList (dpopList (coreS8 sld0 md mm) "error_str")
    "error_information") "response_cost_failure_debug_info")
    "guardrail_information"

/-- The body of `_prepare_data` applied to the dict found under
`standard_logging_data`, faithfully staged: token-key removal, `call_type`
lookup (`get`, not `pop` — the key stays in the dict), `stream` pop, timing-key
removal, metadata pop/clean/write-back, `hidden_params` pop,
`model_map_information` pop/clean/write-back, the four final pops, and the
final `get("response", None)` (again `get`, not `pop`). -/
def prepare_data_core (sld0 : List (String × JVal)) : Except PyErr SLDResult :=
  match _redact_and_clean_metadata (List.lookup "metadata" (coreS3 sld0)) with
  | Except.error e => Except.error e
  | Except.ok md =>
    match _clean_model_map_information
        (List.lookup "model_map_information" (coreS6 sld0 md)) with
    | Except.error e => Except.error e
    | Except.ok mm =>
      Except.ok
        { cleaned := coreS12 sld0 md mm
          call_type := List.lookup "call_type" (coreS1 sld0)
          error_str := List.lookup "error_str" (coreS8 sld0 md mm)
          error_information :=
            List.lookup "error_information" (dpopList (coreS8 sld0 md mm) "error_str")
          response := List.lookup "response" (coreS12 sld0 md mm) }

/-- Pydantic validation performed by the `WeaveLogData(...)` call at the end
of `_prepare_data`: `call_type` and `error_str` must be strings,
`error_information` a dict of strings, `response` a dict; a missing value
(`None`) for any of them raises `ValidationError`. -/
def mkWeaveLogData (r : SLDResult) : Except PyErr WeaveLogData :=
  match r.call_type, r.error_str, r.error_information, r.response with
  | some (JVal.str ct), some (JVal.str es), some (JVal.obj ei), some (JVal.obj resp) =>
    if allStringValues ei then
      Except.ok ⟨r.cleaned, ct, es, ei, resp⟩
    else Except.error PyErr.validationError
  | _, _, _, _ => Except.error PyErr.validationError

/-- The function `_prepare_data`, with the view of the caller made explicit:
the first component of the result is the `kwargs` dict of the caller as it
stands after the call.  The
source reads `kwargs.get("standard_logging_data")` and then immediately
rebinds `standard_logging_data` to the fresh dict built by the
`_remove_keys_with_tokens` comprehension; every later `pop` and item
assignment acts on that fresh dict (or on further comprehension results), so
no operation ever writes into the objects of the caller — which is why each branch
below returns `kwargs` unchanged.  A missing `standard_logging_data` key (the
`get` yields `None`) or a non-dict value raises `AttributeError` at the
`.items()` call inside `_remove_keys_with_tokens`. -/
def _prepare_data_mut (kwargs : List (String × JVal)) :
    List (String × JVal) × Except PyErr WeaveLogData :=
  match List.lookup "standard_logging_data" kwargs with
  | some (JVal.obj sld0) =>
    (kwargs,
      match prepare_data_core sld0 with
      | Except.error e => Except.error e
      | Except.ok r => mkWeaveLogData r)
  | some _ => (kwargs, Except.error PyErr.attributeError)
  | none => (kwargs, Except.error PyErr.attributeError)

/-- `_prepare_data`: the value returned to (or exception propagated to) the
caller. -/
def _prepare_data (kwargs : List (String × JVal)) : Except PyErr WeaveLogData :=
  (_prepare_data_mut kwargs).2

/-- The three environment variables read by `_get_credentials_from_env`. -/
structure Env where
  WANDB_API_KEY : Option String
  WANDB_ENTITY : Option String
  WANDB_PROJECT : Option String

/-- Python `a or b` on optional strings: an unset (`None`) or empty-string
left operand falls through to the right operand. -/
def pyStrOr (a b : Option String) : Option String :=
  match a with
  | some s => if s = "" then b else some s
  | none => b

/-- `_get_credentials_from_env`: resolve the API key (param or env; `None`
raises), the entity (param or env, may stay `None`), the project (param or
env; `None` raises), then construct `WeaveCredentials` — whose pydantic
validation requires all three fields, the entity included, to be strings. -/
def _get_credentials_from_env (env : Env) (wandb_api_key : Option String)
    (wandb_entity : Option String) (weave_project : Option String) :
    Except PyErr WeaveCredentials :=
  match pyStrOr wandb_api_key env.WANDB_API_KEY with
  | none => Except.error (PyErr.exceptionMsg
      "W&B API Key is not set. Visit https://wandb.ai/authorize to get one.")
  | some api_key =>
    let entity := pyStrOr wandb_entity env.WANDB_ENTITY
    match pyStrOr weave_project env.WANDB_PROJECT with
    | none => Except.error (PyErr.exceptionMsg
        "Please provide a project name using the `weave_project` parameter or the `WANDB_PROJECT` environment variable.")
    | some project => mkWeaveCredentials (some api_key) entity (some project)

/-- `_prepare_call_start_payload`: the dict literal passed to `json.dumps`
(the JSON serialization itself carries no further logic and is not modelled).
`project_id` uses Python truthiness of the entity string. -/
def _prepare_call_start_payload (creds : WeaveCredentials)
    (log_data : WeaveLogData) (start_time_str : String) : JVal :=
  JVal.obj [("start", JVal.obj
    [ ("project_id", JVal.str
        (if creds.wandb_entity ≠ "" then
          creds.wandb_entity ++ "/" ++ creds.weave_project
        else creds.weave_project)),
      ("op_name", JVal.str ("litellm." ++ log_data.call_type)),
      ("display_name", JVal.str ("litellm." ++ log_data.call_type)),
      ("started_at", JVal.str start_time_str),
      ("attributes", JVal.obj []),
      ("inputs", JVal.obj log_data.standard_logging_data) ])]

/-- `_prepare_call_end_payload`: the body is `pass`, so the function returns
`None` for every input. -/
def _prepare_call_end_payload (_log_data : WeaveLogData)
    (_end_time_str : String) : Option JVal := none

/-- The methods defined on the `WeaveLogger` class in
`litellm/integrations/weave.py`. -/
def weaveLoggerMethodNames : List String :=
  ["__init__", "_get_credentials_from_env", "_prepare_data",
   "_prepare_call_start_payload", "_prepare_call_end_payload",
   "log_success_event", "log_failure_event"]

/-- Modelled from the spec: the base class `CustomLogger`
(`litellm/integrations/custom_logger.py`, not part of the sources under
verification) is described by the specification only as the logging-framework
hook interface that "supplies `(raw_call_metadata, response_object,
start_time, end_time)` on both success and failure paths"; it contributes the
two hook entry points and defines no `_log_call_start` or `_log_call_end`
helper. -/
def customLoggerMethodNames : List String :=
  ["log_success_event", "log_failure_event"]

/-- Python attribute lookup `self.<name>` on a `WeaveLogger` instance: the
method is found on the class or on its base class. -/
def weaveLoggerHasAttr (nm : String) : Bool :=
  weaveLoggerMethodNames.contains nm || customLoggerMethodNames.contains nm

/-- `log_success_event`: sanitize, format the two timestamps (modelled as the
given strings), then call `self._log_call_start` and `self._log_call_end` —
attribute lookups that raise `AttributeError` when no such method exists on
the instance. -/
def log_success_event (kwargs : List (String × JVal))
    (_start_time_str _end_time_str : String) : Except PyErr Unit :=
  match _prepare_data kwargs with
  | Except.error e => Except.error e
  | Except.ok _log_data =>
    if weaveLoggerHasAttr "_log_call_start" then
      if weaveLoggerHasAttr "_log_call_end" then Except.ok ()
      else Except.error PyErr.attributeError
    else Except.error PyErr.attributeError

/-- `log_failure_event`: identical body to `log_success_event`. -/
def log_failure_event (kwargs : List (String × JVal))
    (_start_time_str _end_time_str : String) : Except PyErr Unit :=
  match _prepare_data kwargs with
  | Except.error e => Except.error e
  | Except.ok _log_data =>
    if weaveLoggerHasAttr "_log_call_start" then
      if weaveLoggerHasAttr "_log_call_end" then Except.ok ()
      else Except.error PyErr.attributeError
    else Except.error PyErr.attributeError

/-- The entries of the cleaned dict that survive from the original input (the
two appended write-backs of `metadata` and `model_map_information` excluded):
the input after the token/stream/timing removals and all seven pops. -/
def sldRemain (sld0 : List (String × JVal)) : List (String × JVal) :=
  dpopList (dpopList (dpopList (dpopList (dpopList (dpopList (dpopList
    (coreS3 sld0) "metadata") "hidden_params") "model_map_information")
    "error_str") "error_information") "response_cost_failure_debug_info")
    "guardrail_information"

/-! ### Property predicates and concrete inputs used in the claim theorems -/

/-- The top-level key exclusions claimed for the sanitized record: no key
containing `"token"`, no `stream` key, no timing key. -/
def sanitizedTopLevelKeys (l : List (String × JVal)) : Bool :=
  l.all (fun p => !(pyIn "token" p.1) && p.1 != "stream" &&
    !(timing_keys.contains p.1))

/-- The cleanliness claimed for the written-back metadata: no key containing
`"_api_"`, no null value. -/
def metadataClean (l : List (String × JVal)) : Bool :=
  l.all (fun p => !(pyIn "_api_" p.1) && !(p.2.isNull))

/-- No value of the dict is null. -/
def valuesNonNull (l : List (String × JVal)) : Bool :=
  l.all (fun p => !(p.2.isNull))

/-- The cleanliness claimed for the nested `model_map_value` dict: no null
value and no key containing `"support"`. -/
def modelMapValueClean (l : List (String × JVal)) : Bool :=
  l.all (fun p => !(p.2.isNull) && !(pyIn "support" p.1))

/-- Whether `kwargs` carries a dict under the `standard_logging_data` key
(the precondition the spec states for `sanitize`). -/
def hasSLDMapping (kwargs : List (String × JVal)) : Bool :=
  match List.lookup "standard_logging_data" kwargs with
  | some (JVal.obj _) => true
  | _ => false

/-- A concrete `standard_logging_data` dict exercising every cleaning step:
a token key, a `stream` key, redactable metadata with an empty
`applied_guardrails`, a `model_map_information` with a `supports_` key, both
error fields and a response. -/
def witnessSld : List (String × JVal) :=
  [("call_type", JVal.str "completion"), ("stream", JVal.bool true),
   ("token_usage", JVal.num 42),
   ("metadata", JVal.obj [("user_api_key", JVal.str "sk-1"),
     ("note", JVal.str "hi"), ("applied_guardrails", JVal.arr [])]),
   ("model_map_information", JVal.obj [("model_map_value", JVal.obj
     [("max_tokens", JVal.num 100), ("supports_vision", JVal.bool true)])]),
   ("error_str", JVal.str "e"),
   ("error_information", JVal.obj [("msg", JVal.str "x")]),
   ("response", JVal.obj [("ok", JVal.bool true)])]

/-- `witnessSld` wrapped the way the logging hooks receive it. -/
def witnessKwargs : List (String × JVal) :=
  [("standard_logging_data", JVal.obj witnessSld)]

/-- The value of `prepare_data_core witnessSld`. -/
def witnessCore : SLDResult :=
  { cleaned := [("call_type", JVal.str "completion"),
      ("response", JVal.obj [("ok", JVal.bool true)]),
      ("metadata", JVal.obj [("note", JVal.str "hi")]),
      ("model_map_information", JVal.obj [("model_map_value",
        JVal.obj [("max_tokens", JVal.num 100)])])]
    call_type := some (JVal.str "completion")
    error_str := some (JVal.str "e")
    error_information := some (JVal.obj [("msg", JVal.str "x")])
    response := some (JVal.obj [("ok", JVal.bool true)]) }

/-- The record `_prepare_data witnessKwargs` returns. -/
def witnessRecord : WeaveLogData :=
  { standard_logging_data := witnessCore.cleaned
    call_type := "completion"
    error_str := "e"
    error_information := [("msg", JVal.str "x")]
    response := [("ok", JVal.bool true)] }

/-- A concrete resolved credential triple. -/
def creds0 : WeaveCredentials :=
  { wandb_api_key := "key", wandb_entity := "entity", weave_project := "proj" }

/-- The environment with none of the three variables set. -/
def envEmpty : Env := ⟨none, none, none⟩

/-- A raw input that is valid except that `response` is absent. -/
def c7aKwargs : List (String × JVal) :=
  [("standard_logging_data", JVal.obj
    [("call_type", JVal.str "completion"), ("error_str", JVal.str "boom"),
     ("error_information", JVal.obj [("msg", JVal.str "m")])])]

/-- A raw input that is valid except that `error_str` is absent. -/
def c7bKwargs : List (String × JVal) :=
  [("standard_logging_data", JVal.obj
    [("call_type", JVal.str "completion"),
     ("error_information", JVal.obj [("msg", JVal.str "m")]),
     ("response", JVal.obj [])])]

/-! ### Association-list lemmas -/

theorem lookup_cons_self {k : String} {v : JVal} {l : List (String × JVal)} :
    List.lookup k ((k, v) :: l) = some v := by
  simp [List.lookup_cons]

theorem lookup_cons_ne {k j : String} {v : JVal} {l : List (String × JVal)}
    (h : k ≠ j) : List.lookup k ((j, v) :: l) = List.lookup k l := by
  rw [List.lookup_cons]
  have hb : (k == j) = false := by simpa using h
  rw [hb]

theorem lookup_eq_none_of_keys {k : String} {l : List (String × JVal)}
    (h : ∀ p ∈ l, p.1 ≠ k) : List.lookup k l = none := by
  induction l with
  | nil => rfl
  | cons a t ih =>
    obtain ⟨a1, a2⟩ := a
    rw [lookup_cons_ne (fun he => h (a1, a2) (List.mem_cons_self _ _) he.symm)]
    exact ih (fun p hp => h p (List.mem_cons_of_mem _ hp))

theorem lookup_append (k : String) (l1 l2 : List (String × JVal)) :
    List.lookup k (l1 ++ l2) =
      match List.lookup k l1 with
      | some v => some v
      | none => List.lookup k l2 := by
  induction l1 with
  | nil => rfl
  | cons a t ih =>
    obtain ⟨a1, a2⟩ := a
    by_cases hk : k = a1
    · subst hk
      rw [List.cons_append, lookup_cons_self, lookup_cons_self]
    · rw [List.cons_append, lookup_cons_ne hk, lookup_cons_ne hk, ih]

theorem lookup_filter_all {k : String} {f : String × JVal → Bool}
    (l : List (String × JVal)) (h : ∀ v, f (k, v) = true) :
    List.lookup k (l.filter f) = List.lookup k l := by
  induction l with
  | nil => rfl
  | cons a t ih =>
    obtain ⟨a1, a2⟩ := a
    by_cases hk : k = a1
    · subst hk
      rw [List.filter_cons_of_pos (h a2), lookup_cons_self, lookup_cons_self]
    · cases hf : f (a1, a2) with
      | true => rw [List.filter_cons_of_pos hf, lookup_cons_ne hk, lookup_cons_ne hk, ih]
      | false => rw [List.filter_cons_of_neg (by simp [hf]), lookup_cons_ne hk, ih]

theorem lookup_filter_some {k : String} {v : JVal} {f : String × JVal → Bool}
    {l : List (String × JVal)} (h : List.lookup k l = some v)
    (hf : f (k, v) = true) : List.lookup k (l.filter f) = some v := by
  induction l with
  | nil => simp [List.lookup] at h
  | cons a t ih =>
    obtain ⟨a1, a2⟩ := a
    by_cases hk : k = a1
    · subst hk
      rw [lookup_cons_self] at h
      cases h
      rw [List.filter_cons_of_pos hf, lookup_cons_self]
    · rw [lookup_cons_ne hk] at h
      cases hf2 : f (a1, a2) with
      | true => rw [List.filter_cons_of_pos hf2, lookup_cons_ne hk]; exact ih h
      | false => rw [List.filter_cons_of_neg (by simp [hf2])]; exact ih h

theorem mem_dpopList {p : String × JVal} {l : List (String × JVal)} {k : String}
    (h : p ∈ dpopList l k) : p ∈ l ∧ p.1 ≠ k := by
  have h' := List.mem_filter.mp h
  exact ⟨h'.1, by simpa using h'.2⟩

theorem dpopList_eq_self {l : List (String × JVal)} {k : String}
    (h : ∀ p ∈ l, p.1 ≠ k) : dpopList l k = l :=
  List.filter_eq_self.mpr (fun p hp => by simpa using h p hp)

theorem dpopList_append (l1 l2 : List (String × JVal)) (k : String) :
    dpopList (l1 ++ l2) k = dpopList l1 k ++ dpopList l2 k :=
  List.filter_append l1 l2

theorem lookup_dpopList_self (l : List (String × JVal)) (k : String) :
    List.lookup k (dpopList l k) = none :=
  lookup_eq_none_of_keys (fun p hp => (mem_dpopList hp).2)

theorem lookup_dpopList_ne {k j : String} (l : List (String × JVal))
    (h : k ≠ j) : List.lookup k (dpopList l j) = List.lookup k l :=
  lookup_filter_all l (fun v => by simpa using h)

theorem mem_dictSet {p : String × JVal} {l : List (String × JVal)}
    {k : String} {v : JVal} (h : p ∈ dictSet l k v) : p ∈ l ∨ p = (k, v) := by
  unfold dictSet at h
  split at h
  · obtain ⟨q, hq, hrepl⟩ := List.mem_map.mp h
    by_cases hk : q.1 = k
    · right
      rw [← hrepl]
      simp [hk]
    · left
      rw [← hrepl]
      simpa [hk] using hq
  · rcases List.mem_append.mp h with h1 | h1
    · exact Or.inl h1
    · simp at h1
      exact Or.inr h1

theorem dictSet_eq_append {l : List (String × JVal)} {k : String} {v : JVal}
    (h : ∀ p ∈ l, p.1 ≠ k) : dictSet l k v = l ++ [(k, v)] := by
  unfold dictSet
  have : l.any (fun p => p.1 == k) = false := by
    rw [List.any_eq_false]
    intro p hp
    simpa using h p hp
  rw [this]
  simp


theorem lookup_map_replace_self {l : List (String × JVal)} {k : String}
    {v : JVal} (h : l.any (fun p => p.1 == k) = true) :
    List.lookup k (l.map (fun p => if p.1 = k then (k, v) else p)) = some v := by
  induction l with
  | nil => simp at h
  | cons a t ih =>
    obtain ⟨a1, a2⟩ := a
    by_cases hk : a1 = k
    · subst hk
      simp only [List.map_cons, if_pos rfl]
      exact lookup_cons_self
    · simp only [List.map_cons, if_neg hk]
      rw [lookup_cons_ne (fun he => hk he.symm)]
      apply ih
      have hb : (a1 == k) = false := by simpa using hk
      simpa [List.any_cons, hb] using h

theorem lookup_map_replace_ne {l : List (String × JVal)} {k j : String}
    {v : JVal} (h : k ≠ j) :
    List.lookup k (l.map (fun p => if p.1 = j then (j, v) else p)) =
      List.lookup k l := by
  induction l with
  | nil => rfl
  | cons a t ih =>
    obtain ⟨a1, a2⟩ := a
    by_cases ha : a1 = j
    · subst ha
      simp only [List.map_cons, eq_self_iff_true, if_true]
      rw [lookup_cons_ne h, lookup_cons_ne h, ih]
    · simp only [List.map_cons, if_neg ha]
      by_cases hk : k = a1
      · subst hk
        rw [lookup_cons_self, lookup_cons_self]
      · rw [lookup_cons_ne hk, lookup_cons_ne hk, ih]

theorem lookup_dictSet_self (l : List (String × JVal)) (k : String) (v : JVal) :
    List.lookup k (dictSet l k v) = some v := by
  unfold dictSet
  split
  · exact lookup_map_replace_self (by assumption)
  · rw [lookup_append]
    rename_i hany
    have hany' : l.any (fun p => p.1 == k) = false := by
      rwa [Bool.not_eq_true] at hany
    have hnone : List.lookup k l = none := by
      apply lookup_eq_none_of_keys
      intro p hp
      have := List.any_eq_false.mp hany' p hp
      simpa using this
    rw [hnone]
    exact lookup_cons_self

theorem lookup_dictSet_ne {k j : String} (l : List (String × JVal)) (v : JVal)
    (h : k ≠ j) : List.lookup k (dictSet l j v) = List.lookup k l := by
  unfold dictSet
  split
  · exact lookup_map_replace_ne h
  · rw [lookup_append]
    cases hl : List.lookup k l with
    | some w => rfl
    | none => exact lookup_cons_ne h

theorem dictSet_same (l : List (String × JVal)) (k : String) (v : JVal) :
    dictSet (dictSet l k v) k v = dictSet l k v := by
  by_cases hany : l.any (fun p => p.1 == k) = true
  · have h1 : dictSet l k v = l.map (fun p => if p.1 = k then (k, v) else p) := by
      unfold dictSet
      rw [if_pos hany]
    rw [h1]
    have hany2 : (l.map (fun p => if p.1 = k then (k, v) else p)).any
        (fun p => p.1 == k) = true := by
      rw [List.any_eq_true] at hany ⊢
      obtain ⟨p, hp, hpk⟩ := hany
      refine ⟨(k, v), List.mem_map.mpr ⟨p, hp, ?_⟩, by simp⟩
      have : p.1 = k := by simpa using hpk
      rw [if_pos this]
    unfold dictSet
    rw [if_pos hany2, List.map_map]
    apply List.map_congr_left
    intro p _
    by_cases hp : p.1 = k
    · simp [hp]
    · simp [hp]
  · have h1 : dictSet l k v = l ++ [(k, v)] := by
      unfold dictSet
      rw [if_neg hany]
    rw [h1]
    have hany2 : ((l ++ [(k, v)]).any (fun p => p.1 == k)) = true := by
      rw [List.any_eq_true]
      exact ⟨(k, v), List.mem_append_right _ (by simp), by simp⟩
    unfold dictSet
    rw [if_pos hany2, List.map_append]
    have hany' : l.any (fun p => p.1 == k) = false := by
      rwa [Bool.not_eq_true] at hany
    have hmapl : l.map (fun p => if p.1 = k then (k, v) else p) = l := by
      have hcong : ∀ p ∈ l, (if p.1 = k then (k, v) else p) = id p := by
        intro p hp
        have := List.any_eq_false.mp hany' p hp
        have hne : ¬(p.1 = k) := by simpa using this
        rw [if_neg hne]
        rfl
      rw [List.map_congr_left hcong, List.map_id]
    rw [hmapl]
    simp

theorem dpopList_singleton_ne {a k : String} {v : JVal} (h : a ≠ k) :
    dpopList [(a, v)] k = [(a, v)] := by
  apply dpopList_eq_self
  intro p hp
  simp at hp
  rw [hp]
  exact h

/-! ### Structure of the cleaned `standard_logging_data` -/

theorem mem_coreS3 {p : String × JVal} {sld0 : List (String × JVal)}
    (h : p ∈ coreS3 sld0) :
    pyIn "token" p.1 = false ∧ p.1 ≠ "stream" ∧
      timing_keys.contains p.1 = false := by
  unfold coreS3 coreS1 _remove_timing_keys _remove_keys_with_tokens at h
  have h1 := List.mem_filter.mp h
  have h2 := mem_dpopList h1.1
  have h3 := List.mem_filter.mp h2.1
  exact ⟨by simpa using h3.2, h2.2, by simpa using h1.2⟩

theorem mem_sldRemain {p : String × JVal} {sld0 : List (String × JVal)}
    (h : p ∈ sldRemain sld0) :
    p ∈ coreS3 sld0 ∧ p.1 ≠ "metadata" ∧ p.1 ≠ "hidden_params" ∧
    p.1 ≠ "model_map_information" ∧ p.1 ≠ "error_str" ∧
    p.1 ≠ "error_information" ∧ p.1 ≠ "response_cost_failure_debug_info" ∧
    p.1 ≠ "guardrail_information" := by
  unfold sldRemain at h
  have h1 := mem_dpopList h
  have h2 := mem_dpopList h1.1
  have h3 := mem_dpopList h2.1
  have h4 := mem_dpopList h3.1
  have h5 := mem_dpopList h4.1
  have h6 := mem_dpopList h5.1
  have h7 := mem_dpopList h6.1
  exact ⟨h7.1, h7.2, h6.2, h5.2, h4.2, h3.2, h2.2, h1.2⟩

theorem dpopList_pair_ne {k a b : String} {va vb : JVal} (ha : a ≠ k)
    (hb : b ≠ k) :
    dpopList [(a, va), (b, vb)] k = [(a, va), (b, vb)] := by
  apply dpopList_eq_self
  intro p hp
  simp at hp
  rcases hp with h | h <;> rw [h]
  · exact ha
  · exact hb

theorem coreS5_decomp (sld0 md : List (String × JVal)) :
    coreS5 sld0 md =
      dpopList (coreS3 sld0) "metadata" ++ [("metadata", JVal.obj md)] := by
  unfold coreS5
  exact dictSet_eq_append (fun p hp => (mem_dpopList hp).2)

theorem coreS6_decomp (sld0 md : List (String × JVal)) :
    coreS6 sld0 md =
      dpopList (dpopList (coreS3 sld0) "metadata") "hidden_params" ++
        [("metadata", JVal.obj md)] := by
  unfold coreS6
  rw [coreS5_decomp, dpopList_append, dpopList_singleton_ne (by decide)]

theorem coreS8_decomp (sld0 md mm : List (String × JVal)) :
    coreS8 sld0 md mm =
      dpopList (dpopList (dpopList (coreS3 sld0) "metadata") "hidden_params")
          "model_map_information" ++
        [("metadata", JVal.obj md), ("model_map_information", JVal.obj mm)] := by
  unfold coreS8
  rw [coreS6_decomp, dpopList_append, dpopList_singleton_ne (by decide)]
  have hf : ∀ p ∈ dpopList (dpopList (dpopList (coreS3 sld0) "metadata")
      "hidden_params") "model_map_information" ++ [("metadata", JVal.obj md)],
      p.1 ≠ "model_map_information" := by
    intro p hp
    rcases List.mem_append.mp hp with h1 | h1
    · exact (mem_dpopList h1).2
    · simp at h1
      rw [h1]
      exact (by decide : ("metadata" : String) ≠ "model_map_information")
  rw [dictSet_eq_append hf]
  simp

theorem coreS12_decomp (sld0 md mm : List (String × JVal)) :
    coreS12 sld0 md mm =
      sldRemain sld0 ++
        [("metadata", JVal.obj md), ("model_map_information", JVal.obj mm)] := by
  unfold coreS12 sldRemain
  rw [coreS8_decomp]
  rw [dpopList_append, dpopList_pair_ne (by decide) (by decide),
    dpopList_append, dpopList_pair_ne (by decide) (by decide),
    dpopList_append, dpopList_pair_ne (by decide) (by decide),
    dpopList_append, dpopList_pair_ne (by decide) (by decide)]

/-! ### Characterization of the success paths -/

theorem prepare_data_core_ok {sld0 : List (String × JVal)} {r : SLDResult}
    (h : prepare_data_core sld0 = Except.ok r) :
    ∃ md mm,
      _redact_and_clean_metadata (List.lookup "metadata" (coreS3 sld0)) =
        Except.ok md ∧
      _clean_model_map_information
        (List.lookup "model_map_information" (coreS6 sld0 md)) = Except.ok mm ∧
      r = { cleaned := coreS12 sld0 md mm
            call_type := List.lookup "call_type" (coreS1 sld0)
            error_str := List.lookup "error_str" (coreS8 sld0 md mm)
            error_information :=
              List.lookup "error_information" (dpopList (coreS8 sld0 md mm) "error_str")
            response := List.lookup "response" (coreS12 sld0 md mm) } := by
  unfold prepare_data_core at h
  cases h1 : _redact_and_clean_metadata (List.lookup "metadata" (coreS3 sld0)) with
  | error e => rw [h1] at h; cases h
  | ok md =>
    rw [h1] at h
    dsimp only at h
    cases h2 : _clean_model_map_information
        (List.lookup "model_map_information" (coreS6 sld0 md)) with
    | error e => rw [h2] at h; cases h
    | ok mm =>
      rw [h2] at h
      dsimp only at h
      cases h
      exact ⟨md, mm, rfl, h2, rfl⟩

theorem mkWeaveLogData_ok {r : SLDResult} {d : WeaveLogData}
    (h : mkWeaveLogData r = Except.ok d) :
    d.standard_logging_data = r.cleaned ∧
    r.call_type = some (JVal.str d.call_type) ∧
    r.error_str = some (JVal.str d.error_str) ∧
    r.error_information = some (JVal.obj d.error_information) ∧
    r.response = some (JVal.obj d.response) := by
  unfold mkWeaveLogData at h
  split at h
  · rename_i ct es ei resp hct hes hei hresp
    split at h
    · cases h
      exact ⟨rfl, hct, hes, hei, hresp⟩
    · cases h
  · cases h

theorem _prepare_data_ok {kwargs : List (String × JVal)} {d : WeaveLogData}
    (h : _prepare_data kwargs = Except.ok d) :
    ∃ sld0 r,
      List.lookup "standard_logging_data" kwargs = some (JVal.obj sld0) ∧
      prepare_data_core sld0 = Except.ok r ∧ mkWeaveLogData r = Except.ok d := by
  unfold _prepare_data _prepare_data_mut at h
  split at h
  · rename_i sld0 hl
    refine ⟨sld0, ?_⟩
    simp only at h
    cases hc : prepare_data_core sld0 with
    | error e => rw [hc] at h; cases h
    | ok r => rw [hc] at h; exact ⟨r, hl, rfl, h⟩
  · simp only at h; cases h
  · simp only at h; cases h

theorem lookup_coreS3_of_pred (j : String) (sld0 : List (String × JVal))
    (ht : pyIn "token" j = false) (hs : j ≠ "stream")
    (htm : timing_keys.contains j = false) :
    List.lookup j (coreS3 sld0) = List.lookup j sld0 := by
  unfold coreS3 coreS1 _remove_timing_keys _remove_keys_with_tokens
  rw [lookup_filter_all _ (fun v => by simpa using htm),
    lookup_dpopList_ne _ hs,
    lookup_filter_all _ (fun v => by simpa using ht)]

theorem lookup_coreS12_preserved (j : String)
    (sld0 md mm : List (String × JVal))
    (h1 : j ≠ "metadata") (h2 : j ≠ "hidden_params")
    (h3 : j ≠ "model_map_information") (h4 : j ≠ "error_str")
    (h5 : j ≠ "error_information")
    (h6 : j ≠ "response_cost_failure_debug_info")
    (h7 : j ≠ "guardrail_information") :
    List.lookup j (coreS12 sld0 md mm) = List.lookup j (coreS3 sld0) := by
  unfold coreS12 coreS8 coreS6 coreS5
  rw [lookup_dpopList_ne _ h7, lookup_dpopList_ne _ h6,
    lookup_dpopList_ne _ h5, lookup_dpopList_ne _ h4,
    lookup_dictSet_ne _ _ h3, lookup_dpopList_ne _ h3,
    lookup_dpopList_ne _ h2, lookup_dictSet_ne _ _ h1,
    lookup_dpopList_ne _ h1]

theorem lookup_metadata_coreS12 (sld0 md mm : List (String × JVal)) :
    List.lookup "metadata" (coreS12 sld0 md mm) = some (JVal.obj md) := by
  rw [coreS12_decomp, lookup_append]
  have hnone : List.lookup "metadata" (sldRemain sld0) = none :=
    lookup_eq_none_of_keys (fun p hp => (mem_sldRemain hp).2.1)
  rw [hnone]
  exact lookup_cons_self

theorem lookup_mmi_coreS12 (sld0 md mm : List (String × JVal)) :
    List.lookup "model_map_information" (coreS12 sld0 md mm) =
      some (JVal.obj mm) := by
  rw [coreS12_decomp, lookup_append]
  have hnone : List.lookup "model_map_information" (sldRemain sld0) = none :=
    lookup_eq_none_of_keys (fun p hp => (mem_sldRemain hp).2.2.2.1)
  rw [hnone]
  show List.lookup "model_map_information"
    [("metadata", JVal.obj md), ("model_map_information", JVal.obj mm)] =
      some (JVal.obj mm)
  rw [lookup_cons_ne (by decide)]
  exact lookup_cons_self

theorem lookup_error_str_coreS12 (sld0 md mm : List (String × JVal)) :
    List.lookup "error_str" (coreS12 sld0 md mm) = none := by
  unfold coreS12
  rw [lookup_dpopList_ne _ (by decide), lookup_dpopList_ne _ (by decide),
    lookup_dpopList_ne _ (by decide)]
  exact lookup_dpopList_self _ _

theorem lookup_error_information_coreS12 (sld0 md mm : List (String × JVal)) :
    List.lookup "error_information" (coreS12 sld0 md mm) = none := by
  unfold coreS12
  rw [lookup_dpopList_ne _ (by decide), lookup_dpopList_ne _ (by decide)]
  exact lookup_dpopList_self _ _

theorem keys_ne_of_lookup_none {k : String} {l : List (String × JVal)}
    (h : List.lookup k l = none) : ∀ p ∈ l, p.1 ≠ k := by
  induction l with
  | nil => intro p hp; cases hp
  | cons a t ih =>
    obtain ⟨a1, a2⟩ := a
    intro p hp
    by_cases hk : k = a1
    · subst hk
      rw [lookup_cons_self] at h
      cases h
    · rw [lookup_cons_ne hk] at h
      rcases List.mem_cons.mp hp with h1 | h1
      · rw [h1]
        exact fun he => hk he.symm
      · exact ih h p h1

theorem any_of_lookup_some {k : String} {v : JVal} {l : List (String × JVal)}
    (h : List.lookup k l = some v) : l.any (fun p => p.1 == k) = true := by
  induction l with
  | nil => cases h
  | cons a t ih =>
    obtain ⟨a1, a2⟩ := a
    by_cases hk : k = a1
    · subst hk
      simp
    · rw [lookup_cons_ne hk] at h
      have := ih h
      simp [this]

/-! ### Properties of `_redact_and_clean_metadata` -/

theorem redact_ok_mem {m0 : Option JVal} {md : List (String × JVal)}
    (h : _redact_and_clean_metadata m0 = Except.ok md) :
    ∀ p ∈ md, pyIn "_api_" p.1 = false ∧ p.2.isNull = false := by
  intro p hp
  cases m0 with
  | none =>
    unfold _redact_and_clean_metadata at h
    cases h
    cases hp
  | some v =>
    unfold _redact_and_clean_metadata at h
    dsimp only at h
    by_cases hf : pyFalsy v = true
    · rw [if_pos hf] at h
      cases h
      cases hp
    · rw [if_neg hf] at h
      cases v with
      | obj m =>
        dsimp only at h
        cases hlen : pyLen ((List.lookup "applied_guardrails"
            ((m.filter (fun p => !(pyIn "_api_" p.1))).filter
              (fun p => !(p.2.isNull)))).getD (JVal.arr [])) with
        | error e => rw [hlen] at h; cases h
        | ok n =>
          rw [hlen] at h
          dsimp only at h
          by_cases hn : (n == 0) = true
          · rw [if_pos hn] at h
            cases h
            have h1 := mem_dpopList hp
            have h2 := List.mem_filter.mp h1.1
            have h3 := List.mem_filter.mp h2.1
            exact ⟨by simpa using h3.2, by simpa using h2.2⟩
          · rw [if_neg hn] at h
            cases h
            have h2 := List.mem_filter.mp hp
            have h3 := List.mem_filter.mp h2.1
            exact ⟨by simpa using h3.2, by simpa using h2.2⟩
      | null => cases h
      | bool b => cases h
      | num n => cases h
      | str s => cases h
      | arr xs => cases h

theorem redact_guardrails_status {m0 : Option JVal} {md : List (String × JVal)}
    (h : _redact_and_clean_metadata m0 = Except.ok md) :
    List.lookup "applied_guardrails" md = none ∨
    ∃ g n, List.lookup "applied_guardrails" md = some g ∧
      pyLen g = Except.ok n ∧ (n == 0) = false := by
  cases m0 with
  | none =>
    unfold _redact_and_clean_metadata at h
    cases h
    exact Or.inl rfl
  | some v =>
    unfold _redact_and_clean_metadata at h
    dsimp only at h
    by_cases hf : pyFalsy v = true
    · rw [if_pos hf] at h
      cases h
      exact Or.inl rfl
    · rw [if_neg hf] at h
      cases v with
      | obj m =>
        dsimp only at h
        cases hlen : pyLen ((List.lookup "applied_guardrails"
            ((m.filter (fun p => !(pyIn "_api_" p.1))).filter
              (fun p => !(p.2.isNull)))).getD (JVal.arr [])) with
        | error e => rw [hlen] at h; cases h
        | ok n =>
          rw [hlen] at h
          dsimp only at h
          by_cases hn : (n == 0) = true
          · rw [if_pos hn] at h
            cases h
            exact Or.inl (lookup_dpopList_self _ _)
          · rw [if_neg hn] at h
            cases h
            cases hlk : List.lookup "applied_guardrails"
                ((m.filter (fun p => !(pyIn "_api_" p.1))).filter
                  (fun p => !(p.2.isNull))) with
            | none => exact Or.inl rfl
            | some g =>
              refine Or.inr ⟨g, n, rfl, ?_, by simpa using hn⟩
              rw [hlk] at hlen
              exact hlen
      | null => cases h
      | bool b => cases h
      | num n => cases h
      | str s => cases h
      | arr xs => cases h

theorem redact_idem {m0 : Option JVal} {md : List (String × JVal)}
    (h : _redact_and_clean_metadata m0 = Except.ok md) :
    _redact_and_clean_metadata (some (JVal.obj md)) = Except.ok md := by
  by_cases hmd : md = []
  · subst hmd
    rfl
  · have hprops := redact_ok_mem h
    have hg := redact_guardrails_status h
    unfold _redact_and_clean_metadata
    dsimp only
    rw [if_neg (by simpa [pyFalsy] using hmd)]
    have hred : md.filter (fun p => !(pyIn "_api_" p.1)) = md :=
      List.filter_eq_self.mpr (fun p hp => by simp [(hprops p hp).1])
    rw [hred]
    have hcln : md.filter (fun p => !(p.2.isNull)) = md :=
      List.filter_eq_self.mpr (fun p hp => by simp [(hprops p hp).2])
    rw [hcln]
    rcases hg with hnone | ⟨g, n, hlk, hlen, hne⟩
    · rw [hnone]
      dsimp only [Option.getD]
      show (if ((0 : Nat) == 0) = true then
          Except.ok (dpopList md "applied_guardrails")
        else Except.ok md) = Except.ok md
      rw [if_pos (by decide), dpopList_eq_self (keys_ne_of_lookup_none hnone)]
    · rw [hlk]
      dsimp only [Option.getD]
      rw [hlen]
      dsimp only
      rw [if_neg (by simp [hne])]

/-! ### Properties of `_clean_model_map_information` -/

theorem mmi_ok_mem {m0 : Option JVal} {mm : List (String × JVal)}
    (h : _clean_model_map_information m0 = Except.ok mm) :
    ∀ p ∈ mm, p.2.isNull = false := by
  intro p hp
  cases m0 with
  | none =>
    unfold _clean_model_map_information at h
    cases h
    cases hp
  | some v =>
    unfold _clean_model_map_information at h
    dsimp only at h
    by_cases hf : pyFalsy v = true
    · rw [if_pos hf] at h
      cases h
      cases hp
    · rw [if_neg hf] at h
      cases v with
      | obj m =>
        dsimp only at h
        cases hlk : List.lookup "model_map_value"
            (m.filter (fun q => !(q.2.isNull))) with
        | none =>
          rw [hlk] at h
          cases h
          have h2 := List.mem_filter.mp hp
          simpa using h2.2
        | some w =>
          rw [hlk] at h
          cases w with
          | obj mv =>
            dsimp only at h
            cases h
            rcases mem_dictSet hp with h1 | h1
            · have h2 := List.mem_filter.mp h1
              simpa using h2.2
            · rw [h1]
              rfl
          | null => cases h
          | bool b => cases h
          | num n => cases h
          | str s => cases h
          | arr xs => cases h
      | null => cases h
      | bool b => cases h
      | num n => cases h
      | str s => cases h
      | arr xs => cases h

theorem mmi_mv_props {m0 : Option JVal} {mm mv : List (String × JVal)}
    (h : _clean_model_map_information m0 = Except.ok mm)
    (hlk : List.lookup "model_map_value" mm = some (JVal.obj mv)) :
    ∀ p ∈ mv, p.2.isNull = false ∧ pyIn "support" p.1 = false := by
  cases m0 with
  | none =>
    unfold _clean_model_map_information at h
    cases h
    cases hlk
  | some v =>
    unfold _clean_model_map_information at h
    dsimp only at h
    by_cases hf : pyFalsy v = true
    · rw [if_pos hf] at h
      cases h
      cases hlk
    · rw [if_neg hf] at h
      cases v with
      | obj m =>
        dsimp only at h
        cases hl2 : List.lookup "model_map_value"
            (m.filter (fun q => !(q.2.isNull))) with
        | none =>
          rw [hl2] at h
          cases h
          rw [hl2] at hlk
          cases hlk
        | some w =>
          rw [hl2] at h
          cases w with
          | obj mv0 =>
            dsimp only at h
            cases h
            rw [lookup_dictSet_self] at hlk
            cases hlk
            intro p hp
            have h2 := List.mem_filter.mp hp
            have h3 := List.mem_filter.mp h2.1
            exact ⟨by simpa using h3.2, by simpa using h2.2⟩
          | null => cases h
          | bool b => cases h
          | num n => cases h
          | str s => cases h
          | arr xs => cases h
      | null => cases h
      | bool b => cases h
      | num n => cases h
      | str s => cases h
      | arr xs => cases h

theorem mmi_mv_status {m0 : Option JVal} {mm : List (String × JVal)}
    (h : _clean_model_map_information m0 = Except.ok mm) :
    List.lookup "model_map_value" mm = none ∨
    ∃ mv, List.lookup "model_map_value" mm = some (JVal.obj mv) ∧
      mv.filter (fun p => !(p.2.isNull)) = mv ∧
      mv.filter (fun p => !(pyIn "support" p.1)) = mv ∧
      dictSet mm "model_map_value" (JVal.obj mv) = mm := by
  cases m0 with
  | none =>
    unfold _clean_model_map_information at h
    cases h
    exact Or.inl rfl
  | some v =>
    unfold _clean_model_map_information at h
    dsimp only at h
    by_cases hf : pyFalsy v = true
    · rw [if_pos hf] at h
      cases h
      exact Or.inl rfl
    · rw [if_neg hf] at h
      cases v with
      | obj m =>
        dsimp only at h
        cases hl2 : List.lookup "model_map_value"
            (m.filter (fun q => !(q.2.isNull))) with
        | none =>
          rw [hl2] at h
          cases h
          exact Or.inl hl2
        | some w =>
          rw [hl2] at h
          cases w with
          | obj mv0 =>
            dsimp only at h
            cases h
            refine Or.inr ⟨(mv0.filter (fun p => !(p.2.isNull))).filter
              (fun p => !(pyIn "support" p.1)), lookup_dictSet_self _ _ _, ?_, ?_, ?_⟩
            · apply List.filter_eq_self.mpr
              intro p hp
              have h2 := List.mem_filter.mp hp
              have h3 := List.mem_filter.mp h2.1
              exact h3.2
            · apply List.filter_eq_self.mpr
              intro p hp
              have h2 := List.mem_filter.mp hp
              exact h2.2
            · exact dictSet_same _ _ _
          | null => cases h
          | bool b => cases h
          | num n => cases h
          | str s => cases h
          | arr xs => cases h
      | null => cases h
      | bool b => cases h
      | num n => cases h
      | str s => cases h
      | arr xs => cases h

theorem mmi_idem {m0 : Option JVal} {mm : List (String × JVal)}
    (h : _clean_model_map_information m0 = Except.ok mm) :
    _clean_model_map_information (some (JVal.obj mm)) = Except.ok mm := by
  by_cases hmm : mm = []
  · subst hmm
    rfl
  · have hmem := mmi_ok_mem h
    have hst := mmi_mv_status h
    unfold _clean_model_map_information
    dsimp only
    rw [if_neg (by simpa [pyFalsy] using hmm)]
    have hcln : mm.filter (fun p => !(p.2.isNull)) = mm :=
      List.filter_eq_self.mpr (fun p hp => by simp [hmem p hp])
    rw [hcln]
    rcases hst with hnone | ⟨mv, hlk, hf1, hf2, hds⟩
    · rw [hnone]
    · rw [hlk]
      dsimp only
      rw [hf1, hf2, hds]

theorem dpopList_nil (k : String) : dpopList [] k = [] := rfl

theorem dpopList_cons_ne {a k : String} {v : JVal} {l : List (String × JVal)}
    (h : a ≠ k) : dpopList ((a, v) :: l) k = (a, v) :: dpopList l k := by
  unfold dpopList
  rw [List.filter_cons_of_pos (by simpa using h)]

theorem dpopList_cons_self {k : String} {v : JVal} {l : List (String × JVal)} :
    dpopList ((k, v) :: l) k = dpopList l k := by
  unfold dpopList
  rw [List.filter_cons_of_neg (by simp)]

theorem lookup_coreS3_coreS1 (j : String) (sld0 : List (String × JVal))
    (hs : j ≠ "stream") (htm : timing_keys.contains j = false) :
    List.lookup j (coreS3 sld0) = List.lookup j (coreS1 sld0) := by
  unfold coreS3 _remove_timing_keys
  rw [lookup_filter_all _ (fun v => by simpa using htm),
    lookup_dpopList_ne _ hs]

theorem mem_coreS12_facts {sld0 md mm : List (String × JVal)}
    {p : String × JVal} (hp : p ∈ coreS12 sld0 md mm) :
    pyIn "token" p.1 = false ∧ p.1 ≠ "stream" ∧
    timing_keys.contains p.1 = false ∧ p.1 ≠ "hidden_params" ∧
    p.1 ≠ "error_str" ∧ p.1 ≠ "error_information" ∧
    p.1 ≠ "response_cost_failure_debug_info" ∧
    p.1 ≠ "guardrail_information" := by
  rw [coreS12_decomp] at hp
  rcases List.mem_append.mp hp with h1 | h1
  · have hs := mem_sldRemain h1
    have h3 := mem_coreS3 hs.1
    exact ⟨h3.1, h3.2.1, h3.2.2, hs.2.2.1, hs.2.2.2.2.1, hs.2.2.2.2.2.1,
      hs.2.2.2.2.2.2.1, hs.2.2.2.2.2.2.2⟩
  · have hfacts : ∀ a : String, a = "metadata" ∨ a = "model_map_information" →
        pyIn "token" a = false ∧ a ≠ "stream" ∧
        timing_keys.contains a = false ∧ a ≠ "hidden_params" ∧
        a ≠ "error_str" ∧ a ≠ "error_information" ∧
        a ≠ "response_cost_failure_debug_info" ∧
        a ≠ "guardrail_information" := by
      intro a ha
      rcases ha with ha | ha <;> subst ha <;> exact ⟨by decide, by decide,
        by decide, by decide, by decide, by decide, by decide, by decide⟩
    simp at h1
    rcases h1 with h1 | h1 <;> subst h1
    · exact hfacts "metadata" (Or.inl rfl)
    · exact hfacts "model_map_information" (Or.inr rfl)

theorem coreS12_unfold (s md mm : List (String × JVal)) :
    coreS12 s md mm =
      dpopList (dpopList (dpopList (dpopList (coreS8 s md mm) "error_str")
        "error_information") "response_cost_failure_debug_info")
        "guardrail_information" := rfl

/-- Re-running the body of `_prepare_data` on an already-cleaned
`standard_logging_data` dict leaves the dict unchanged; `call_type` and
`response` are found again (they were retrieved via `get`, not `pop`), while
`error_str` and `error_information` come back as `None` (their keys were
popped by the first run). -/
theorem prepare_data_core_fixed_point {sld0 : List (String × JVal)}
    {r : SLDResult} (h : prepare_data_core sld0 = Except.ok r) :
    prepare_data_core r.cleaned =
      Except.ok { cleaned := r.cleaned, call_type := r.call_type,
                  error_str := none, error_information := none,
                  response := r.response } := by
  obtain ⟨md, mm, hmd, hmm, hr⟩ := prepare_data_core_ok h
  subst hr
  dsimp only
  have hmemc := fun p hp => @mem_coreS12_facts sld0 md mm p hp
  -- the token filter, the `stream` pop and the timing filter are identities
  have hS1c : coreS1 (coreS12 sld0 md mm) = coreS12 sld0 md mm := by
    unfold coreS1 _remove_keys_with_tokens
    exact List.filter_eq_self.mpr (fun p hp => by simp [(hmemc p hp).1])
  have hS3c : coreS3 (coreS12 sld0 md mm) = coreS12 sld0 md mm := by
    unfold coreS3
    rw [hS1c, dpopList_eq_self (fun p hp => (hmemc p hp).2.1)]
    unfold _remove_timing_keys
    exact List.filter_eq_self.mpr (fun p hp => by
      simpa using (hmemc p hp).2.2.1)
  -- the metadata cleaning finds the written-back cleaned metadata
  have hredact2 : _redact_and_clean_metadata
      (List.lookup "metadata" (coreS3 (coreS12 sld0 md mm))) = Except.ok md := by
    rw [hS3c, lookup_metadata_coreS12]
    exact redact_idem hmd
  -- shape after popping and re-appending `metadata`
  have hdpopmd : dpopList (coreS12 sld0 md mm) "metadata" =
      sldRemain sld0 ++ [("model_map_information", JVal.obj mm)] := by
    rw [coreS12_decomp, dpopList_append,
      dpopList_eq_self (fun p hp => (mem_sldRemain hp).2.1),
      dpopList_cons_self, dpopList_singleton_ne (by decide)]
  have hS5 : coreS5 (coreS12 sld0 md mm) md =
      (sldRemain sld0 ++ [("model_map_information", JVal.obj mm)]) ++
        [("metadata", JVal.obj md)] := by
    unfold coreS5
    rw [hS3c, hdpopmd]
    apply dictSet_eq_append
    intro p hp
    rcases List.mem_append.mp hp with h1 | h1
    · exact (mem_sldRemain h1).2.1
    · simp at h1
      subst h1
      exact (by decide : ("model_map_information" : String) ≠ "metadata")
  have hS6 : coreS6 (coreS12 sld0 md mm) md =
      (sldRemain sld0 ++ [("model_map_information", JVal.obj mm)]) ++
        [("metadata", JVal.obj md)] := by
    unfold coreS6
    rw [hS5]
    apply dpopList_eq_self
    intro p hp
    rcases List.mem_append.mp hp with h1 | h1
    · rcases List.mem_append.mp h1 with h2 | h2
      · exact (mem_sldRemain h2).2.2.1
      · simp at h2
        subst h2
        exact (by decide : ("model_map_information" : String) ≠ "hidden_params")
    · simp at h1
      subst h1
      exact (by decide : ("metadata" : String) ≠ "hidden_params")
  -- the model-map cleaning finds the written-back cleaned value
  have hmm2 : _clean_model_map_information (List.lookup "model_map_information"
      (coreS6 (coreS12 sld0 md mm) md)) = Except.ok mm := by
    rw [hS6, lookup_append]
    rw [lookup_append]
    rw [lookup_eq_none_of_keys (fun p hp => (mem_sldRemain hp).2.2.2.1)]
    show _clean_model_map_information (List.lookup "model_map_information"
      [("model_map_information", JVal.obj mm)]) = Except.ok mm
    rw [lookup_cons_self]
    exact mmi_idem hmm
  have hS8 : coreS8 (coreS12 sld0 md mm) md mm = coreS12 sld0 md mm := by
    unfold coreS8
    rw [hS6, dpopList_append, dpopList_append,
      dpopList_eq_self (fun p hp => (mem_sldRemain hp).2.2.2.1),
      dpopList_cons_self, dpopList_nil, dpopList_singleton_ne (by decide)]
    rw [dictSet_eq_append ?hfree]
    case hfree =>
      intro p hp
      rcases List.mem_append.mp hp with h1 | h1
      · rcases List.mem_append.mp h1 with h2 | h2
        · exact (mem_sldRemain h2).2.2.2.1
        · simp at h2
      · simp at h1
        subst h1
        exact (by decide : ("metadata" : String) ≠ "model_map_information")
    rw [coreS12_decomp]
    simp
  have hS12 : coreS12 (coreS12 sld0 md mm) md mm = coreS12 sld0 md mm := by
    rw [coreS12_unfold (coreS12 sld0 md mm) md mm, hS8,
      dpopList_eq_self (fun p hp => (hmemc p hp).2.2.2.2.1),
      dpopList_eq_self (fun p hp => (hmemc p hp).2.2.2.2.2.1),
      dpopList_eq_self (fun p hp => (hmemc p hp).2.2.2.2.2.2.1),
      dpopList_eq_self (fun p hp => (hmemc p hp).2.2.2.2.2.2.2)]
  -- assemble the second run
  unfold prepare_data_core
  rw [hredact2]
  dsimp only
  rw [hmm2]
  dsimp only
  rw [hS12, hS8, hS1c]
  rw [lookup_coreS12_preserved "call_type" sld0 md mm (by decide) (by decide)
    (by decide) (by decide) (by decide) (by decide) (by decide)]
  rw [lookup_coreS3_coreS1 "call_type" sld0 (by decide) (by decide)]
  rw [lookup_error_str_coreS12]
  rw [lookup_dpopList_ne _ (by decide : ("error_information" : String) ≠ "error_str")]
  rw [lookup_error_information_coreS12]

/-! ### Claim theorems -/

/-- C2 (amended): whenever the raw input has no dict under
`standard_logging_data` (key absent or value not a mapping), `_prepare_data`
fails — but with the untyped built-in `AttributeError` raised by iterating the
non-dict, not with any typed `MissingDataError` (no such type exists in the
code) — and no record is returned. -/
theorem claim_C2_missing_sld_fails {kwargs : List (String × JVal)}
    (h : hasSLDMapping kwargs = false) :
    _prepare_data kwargs = Except.error PyErr.attributeError := by
  unfold hasSLDMapping at h
  unfold _prepare_data _prepare_data_mut
  cases hlk : List.lookup "standard_logging_data" kwargs with
  | none => rfl
  | some v =>
    rw [hlk] at h
    cases v with
    | obj m => cases h
    | null => rfl
    | bool b => rfl
    | num n => rfl
    | str s => rfl
    | arr xs => rfl

/-- C2 witness: the empty `kwargs` dict lacks the key and the sanitize
operation fails with `AttributeError`. -/
theorem claim_C2_witness :
    hasSLDMapping [] = false ∧
    _prepare_data [] = Except.error PyErr.attributeError :=
  ⟨rfl, claim_C2_missing_sld_fails rfl⟩

/-- C2 counterexample: on the empty input (no `standard_logging_data` key) the
code raises `AttributeError`, which is not the `MissingDataError` the claim
names — so the claim as stated is false. -/
theorem claim_C2_counterexample :
    List.lookup "standard_logging_data" ([] : List (String × JVal)) = none ∧
    _prepare_data [] = Except.error PyErr.attributeError ∧
    PyErr.attributeError ≠ PyErr.missingDataError :=
  ⟨rfl, rfl, by decide⟩

/-- C7: the code is inconsistent with the intent of the claim (and of the code itself): the
pops of `error_str` / `error_information` and the `get("response", None)`
default `None` on absence, but `WeaveLogData` declares all three fields
required and non-`None`, so pydantic validation makes `_prepare_data` raise
`ValidationError` whenever `response` (first conjunct) or `error_str` (second
conjunct) is absent, instead of succeeding with nulls. -/
theorem claim_C7_optional_fields_fail :
    _prepare_data c7aKwargs = Except.error PyErr.validationError ∧
    _prepare_data c7bKwargs = Except.error PyErr.validationError :=
  ⟨rfl, rfl⟩

/-- C8: resolution of the credentials.  A missing API key and a missing
project each fail fast with the dedicated message, as claimed; but with both
supplied and the entity absent, construction does NOT succeed: pydantic
rejects `wandb_entity=None` because `WeaveCredentials.wandb_entity` is
declared a required `str` — contradicting the claim (and the comment in the
code itself saying that an unset entity falls back to the account default).  With all
three supplied, construction succeeds. -/
theorem claim_C8_credentials :
    _get_credentials_from_env envEmpty none none none =
      Except.error (PyErr.exceptionMsg
        "W&B API Key is not set. Visit https://wandb.ai/authorize to get one.") ∧
    _get_credentials_from_env envEmpty (some "key") none none =
      Except.error (PyErr.exceptionMsg
        "Please provide a project name using the `weave_project` parameter or the `WANDB_PROJECT` environment variable.") ∧
    _get_credentials_from_env envEmpty (some "key") none (some "proj") =
      Except.error PyErr.validationError ∧
    _get_credentials_from_env envEmpty (some "key") (some "entity") (some "proj") =
      Except.ok creds0 :=
  ⟨rfl, rfl, rfl, rfl⟩

/-- C9: `_prepare_data` is pure.  The `kwargs` dict of the caller (with everything
below it, the `standard_logging_data` dict included) is returned unchanged by
the state-explicit embedding — every mutation in the source acts on dicts
freshly created by comprehensions — and the result is a function of the input
value alone. -/
theorem claim_C9_pure :
    (∀ kwargs : List (String × JVal), (_prepare_data_mut kwargs).1 = kwargs) ∧
    (∀ k1 k2 : List (String × JVal), k1 = k2 →
      _prepare_data k1 = _prepare_data k2) := by
  constructor
  · intro kwargs
    unfold _prepare_data_mut
    split <;> rfl
  · intro k1 k2 h
    rw [h]

/-- C9 witness at a concrete input. -/
theorem claim_C9_witness :
    (_prepare_data_mut witnessKwargs).1 = witnessKwargs ∧
    _prepare_data witnessKwargs = _prepare_data witnessKwargs :=
  ⟨claim_C9_pure.1 witnessKwargs,
   claim_C9_pure.2 witnessKwargs witnessKwargs rfl⟩

/-- C10: `_prepare_call_end_payload` returns `None` on every input, the
`_log_call_start` / `_log_call_end` methods are not defined on `WeaveLogger`
(nor on the base class hook interface), and therefore both logging hooks
raise `AttributeError` right after a successful sanitization — no call-start
or call-end payload is ever emitted. -/
theorem claim_C10_hooks_fail :
    (∀ (d : WeaveLogData) (t : String), _prepare_call_end_payload d t = none) ∧
    weaveLoggerHasAttr "_log_call_start" = false ∧
    weaveLoggerHasAttr "_log_call_end" = false ∧
    (∀ (kwargs : List (String × JVal)) (s e : String) (d : WeaveLogData),
      _prepare_data kwargs = Except.ok d →
      log_success_event kwargs s e = Except.error PyErr.attributeError ∧
      log_failure_event kwargs s e = Except.error PyErr.attributeError) := by
  refine ⟨fun d t => rfl, rfl, rfl, ?_⟩
  intro kwargs s e d h
  constructor
  · unfold log_success_event
    rw [h]
    rfl
  · unfold log_failure_event
    rw [h]
    rfl

/-- C10 witness at a concrete input whose sanitization succeeds. -/
theorem claim_C10_witness :
    log_success_event witnessKwargs "s" "e" = Except.error PyErr.attributeError ∧
    log_failure_event witnessKwargs "s" "e" = Except.error PyErr.attributeError :=
  claim_C10_hooks_fail.2.2.2 witnessKwargs "s" "e" witnessRecord rfl

/-- C3: whenever sanitization succeeds, the field `standard_logging_data` of the record
has no top-level key containing `"token"`, no `stream` key, and none of
`startTime`, `endTime`, `completionStartTime`, `response_time`. -/
theorem claim_C3_sanitized_keys {kwargs : List (String × JVal)}
    {d : WeaveLogData} (h : _prepare_data kwargs = Except.ok d) :
    sanitizedTopLevelKeys d.standard_logging_data = true := by
  obtain ⟨sld0, r, hlk, hcore, hmk⟩ := _prepare_data_ok h
  obtain ⟨md, mm, hmd, hmm, hr⟩ := prepare_data_core_ok hcore
  have hsld := (mkWeaveLogData_ok hmk).1
  rw [hsld, hr]
  dsimp only
  unfold sanitizedTopLevelKeys
  rw [List.all_eq_true]
  intro p hp
  have hf := mem_coreS12_facts hp
  have h3 : p.1 ∉ timing_keys := by simpa using hf.2.2.1
  simp [hf.1, hf.2.1, h3]

/-- C3 witness at a concrete input carrying a token key, a `stream` key and
nothing timing-related left after cleaning. -/
theorem claim_C3_witness :
    _prepare_data witnessKwargs = Except.ok witnessRecord ∧
    sanitizedTopLevelKeys witnessRecord.standard_logging_data = true :=
  ⟨rfl, @claim_C3_sanitized_keys witnessKwargs witnessRecord rfl⟩

/-- C4: the metadata written back into the record.  (i) Every mapping the
cleaner returns has no `"_api_"` key and no null value; (ii) an
`applied_guardrails` entry whose source value is the empty sequence is absent
from the result; (iii) a missing metadata is treated as the empty mapping, not
an error; (iv) every successfully sanitized record carries a metadata
mapping. -/
theorem claim_C4_metadata :
    (∀ (md0 : Option JVal) (m : List (String × JVal)),
      _redact_and_clean_metadata md0 = Except.ok m → metadataClean m = true) ∧
    (∀ (l m : List (String × JVal)),
      List.lookup "applied_guardrails" l = some (JVal.arr []) →
      _redact_and_clean_metadata (some (JVal.obj l)) = Except.ok m →
      List.lookup "applied_guardrails" m = none) ∧
    (_redact_and_clean_metadata none = Except.ok []) ∧
    (∀ (kwargs : List (String × JVal)) (d : WeaveLogData),
      _prepare_data kwargs = Except.ok d →
      ∃ m, List.lookup "metadata" d.standard_logging_data =
        some (JVal.obj m)) := by
  refine ⟨?_, ?_, rfl, ?_⟩
  · intro md0 m h
    unfold metadataClean
    rw [List.all_eq_true]
    intro p hp
    have hf := redact_ok_mem h p hp
    simp [hf.1, hf.2]
  · intro l m hlk h
    have hne : l ≠ [] := by
      intro he
      subst he
      cases hlk
    unfold _redact_and_clean_metadata at h
    dsimp only at h
    rw [if_neg (by simpa [pyFalsy] using hne)] at h
    have hl1 : List.lookup "applied_guardrails"
        (l.filter (fun p => !(pyIn "_api_" p.1))) = some (JVal.arr []) :=
      lookup_filter_some hlk (by decide)
    have hl2 : List.lookup "applied_guardrails"
        ((l.filter (fun p => !(pyIn "_api_" p.1))).filter
          (fun p => !(p.2.isNull))) = some (JVal.arr []) :=
      lookup_filter_some hl1 (by decide)
    rw [hl2] at h
    dsimp only [Option.getD] at h
    rw [show pyLen (JVal.arr []) = Except.ok 0 from rfl] at h
    dsimp only at h
    rw [if_pos (by decide)] at h
    cases h
    exact lookup_dpopList_self _ _
  · intro kwargs d h
    obtain ⟨sld0, r, hlk, hcore, hmk⟩ := _prepare_data_ok h
    obtain ⟨md, mm, hmd, hmm, hr⟩ := prepare_data_core_ok hcore
    have hsld := (mkWeaveLogData_ok hmk).1
    rw [hsld, hr]
    dsimp only
    exact ⟨md, lookup_metadata_coreS12 sld0 md mm⟩

/-- C4 witness: a concrete metadata with a credential-like key, a useful key
and an empty `applied_guardrails`. -/
theorem claim_C4_witness :
    _redact_and_clean_metadata (some (JVal.obj [("user_api_key", JVal.str "sk-1"),
      ("note", JVal.str "hi"), ("applied_guardrails", JVal.arr [])])) =
      Except.ok [("note", JVal.str "hi")] ∧
    metadataClean [("note", JVal.str "hi")] = true ∧
    List.lookup "applied_guardrails" [("note", JVal.str "hi")] = none ∧
    (∃ m, List.lookup "metadata" witnessRecord.standard_logging_data =
      some (JVal.obj m)) :=
  ⟨rfl,
   claim_C4_metadata.1 (some (JVal.obj [("user_api_key", JVal.str "sk-1"),
     ("note", JVal.str "hi"), ("applied_guardrails", JVal.arr [])]))
     [("note", JVal.str "hi")] rfl,
   claim_C4_metadata.2.1 [("user_api_key", JVal.str "sk-1"),
     ("note", JVal.str "hi"), ("applied_guardrails", JVal.arr [])]
     [("note", JVal.str "hi")] rfl rfl,
   claim_C4_metadata.2.2.2 witnessKwargs witnessRecord rfl⟩

/-- C5: the cleaned `model_map_information` written back into the record.
(i) No top-level value is null; (ii) a present `model_map_value` sub-mapping
has no null value and no key containing `"support"`; (iii) a missing
`model_map_information` is replaced by the empty mapping; (iv) every
successfully sanitized record carries a `model_map_information` mapping. -/
theorem claim_C5_model_map :
    (∀ (m0 : Option JVal) (mm : List (String × JVal)),
      _clean_model_map_information m0 = Except.ok mm →
      valuesNonNull mm = true) ∧
    (∀ (m0 : Option JVal) (mm mv : List (String × JVal)),
      _clean_model_map_information m0 = Except.ok mm →
      List.lookup "model_map_value" mm = some (JVal.obj mv) →
      modelMapValueClean mv = true) ∧
    (_clean_model_map_information none = Except.ok []) ∧
    (∀ (kwargs : List (String × JVal)) (d : WeaveLogData),
      _prepare_data kwargs = Except.ok d →
      ∃ mm, List.lookup "model_map_information" d.standard_logging_data =
        some (JVal.obj mm)) := by
  refine ⟨?_, ?_, rfl, ?_⟩
  · intro m0 mm h
    unfold valuesNonNull
    rw [List.all_eq_true]
    intro p hp
    simp [mmi_ok_mem h p hp]
  · intro m0 mm mv h hlk
    unfold modelMapValueClean
    rw [List.all_eq_true]
    intro p hp
    have hf := mmi_mv_props h hlk p hp
    simp [hf.1, hf.2]
  · intro kwargs d h
    obtain ⟨sld0, r, hlk, hcore, hmk⟩ := _prepare_data_ok h
    obtain ⟨md, mm, hmd, hmm, hr⟩ := prepare_data_core_ok hcore
    have hsld := (mkWeaveLogData_ok hmk).1
    rw [hsld, hr]
    dsimp only
    exact ⟨mm, lookup_mmi_coreS12 sld0 md mm⟩

/-- C5 witness: a concrete `model_map_information` with a null top-level
value and a `model_map_value` containing a null and a `supports_` key. -/
theorem claim_C5_witness :
    _clean_model_map_information (some (JVal.obj [("x", JVal.null),
      ("model_map_value", JVal.obj [("max_tokens", JVal.num 100),
        ("supports_vision", JVal.bool true), ("y", JVal.null)])])) =
      Except.ok [("model_map_value", JVal.obj [("max_tokens", JVal.num 100)])] ∧
    valuesNonNull [("model_map_value", JVal.obj [("max_tokens", JVal.num 100)])] = true ∧
    modelMapValueClean [("max_tokens", JVal.num 100)] = true ∧
    (∃ mm, List.lookup "model_map_information"
      witnessRecord.standard_logging_data = some (JVal.obj mm)) :=
  ⟨rfl,
   claim_C5_model_map.1 (some (JVal.obj [("x", JVal.null),
     ("model_map_value", JVal.obj [("max_tokens", JVal.num 100),
       ("supports_vision", JVal.bool true), ("y", JVal.null)])]))
     [("model_map_value", JVal.obj [("max_tokens", JVal.num 100)])] rfl,
   claim_C5_model_map.2.1 (some (JVal.obj [("x", JVal.null),
     ("model_map_value", JVal.obj [("max_tokens", JVal.num 100),
       ("supports_vision", JVal.bool true), ("y", JVal.null)])]))
     [("model_map_value", JVal.obj [("max_tokens", JVal.num 100)])]
     [("max_tokens", JVal.num 100)] rfl rfl,
   claim_C5_model_map.2.2.2 witnessKwargs witnessRecord rfl⟩

/-- C1 (amended): for every record produced by a successful sanitization, the
call-start payload is exactly the mapping
`{start: {project_id, op_name: "litellm."+call_type, display_name: same,
started_at, attributes: {}, inputs}}` with `project_id` composed as
`entity/project` for a truthy entity and just `project` otherwise — but
`inputs` is the sanitized mapping with only the error fields (`error_str`,
`error_information`) removed: `call_type` and `response` are retrieved with
`get`, not `pop`, and therefore remain inside `inputs`. -/
theorem claim_C1_start_payload (creds : WeaveCredentials)
    {kwargs : List (String × JVal)} {d : WeaveLogData}
    (h : _prepare_data kwargs = Except.ok d) (ts : String) :
    _prepare_call_start_payload creds d ts = JVal.obj [("start", JVal.obj
      [ ("project_id", JVal.str (if creds.wandb_entity ≠ "" then
            creds.wandb_entity ++ "/" ++ creds.weave_project
          else creds.weave_project)),
        ("op_name", JVal.str ("litellm." ++ d.call_type)),
        ("display_name", JVal.str ("litellm." ++ d.call_type)),
        ("started_at", JVal.str ts),
        ("attributes", JVal.obj []),
        ("inputs", JVal.obj d.standard_logging_data) ])] ∧
    List.lookup "error_str" d.standard_logging_data = none ∧
    List.lookup "error_information" d.standard_logging_data = none ∧
    List.lookup "call_type" d.standard_logging_data =
      some (JVal.str d.call_type) ∧
    List.lookup "response" d.standard_logging_data =
      some (JVal.obj d.response) := by
  obtain ⟨sld0, r, hlk, hcore, hmk⟩ := _prepare_data_ok h
  obtain ⟨md, mm, hmd, hmm, hr⟩ := prepare_data_core_ok hcore
  obtain ⟨hsld, hct, hes, hei, hresp⟩ := mkWeaveLogData_ok hmk
  refine ⟨rfl, ?_, ?_, ?_, ?_⟩
  · rw [hsld, hr]
    exact lookup_error_str_coreS12 sld0 md mm
  · rw [hsld, hr]
    exact lookup_error_information_coreS12 sld0 md mm
  · rw [hsld, hr]
    dsimp only
    rw [lookup_coreS12_preserved "call_type" sld0 md mm (by decide)
      (by decide) (by decide) (by decide) (by decide) (by decide) (by decide)]
    rw [lookup_coreS3_coreS1 "call_type" sld0 (by decide) (by decide)]
    rw [hr] at hct
    exact hct
  · rw [hsld, hr]
    dsimp only
    rw [hr] at hresp
    exact hresp

/-- C1 witness at a concrete credential triple, record and timestamp. -/
theorem claim_C1_witness :
    _prepare_call_start_payload creds0 witnessRecord "t0" =
      JVal.obj [("start", JVal.obj
      [ ("project_id", JVal.str (if creds0.wandb_entity ≠ "" then
            creds0.wandb_entity ++ "/" ++ creds0.weave_project
          else creds0.weave_project)),
        ("op_name", JVal.str ("litellm." ++ witnessRecord.call_type)),
        ("display_name", JVal.str ("litellm." ++ witnessRecord.call_type)),
        ("started_at", JVal.str "t0"),
        ("attributes", JVal.obj []),
        ("inputs", JVal.obj witnessRecord.standard_logging_data) ])] ∧
    List.lookup "error_str" witnessRecord.standard_logging_data = none ∧
    List.lookup "error_information" witnessRecord.standard_logging_data = none ∧
    List.lookup "call_type" witnessRecord.standard_logging_data =
      some (JVal.str witnessRecord.call_type) ∧
    List.lookup "response" witnessRecord.standard_logging_data =
      some (JVal.obj witnessRecord.response) :=
  @claim_C1_start_payload creds0 witnessKwargs witnessRecord rfl "t0"

/-- C1 counterexample: at a concrete sanitized record the `inputs` part of the payload
mapping still contains the `call_type` and `response` keys that the claim
says are excluded. -/
theorem claim_C1_counterexample :
    _prepare_data witnessKwargs = Except.ok witnessRecord ∧
    _prepare_call_start_payload creds0 witnessRecord "t0" =
      JVal.obj [("start", JVal.obj
      [ ("project_id", JVal.str "entity/proj"),
        ("op_name", JVal.str "litellm.completion"),
        ("display_name", JVal.str "litellm.completion"),
        ("started_at", JVal.str "t0"),
        ("attributes", JVal.obj []),
        ("inputs", JVal.obj witnessRecord.standard_logging_data) ])] ∧
    List.lookup "call_type" witnessRecord.standard_logging_data =
      some (JVal.str "completion") ∧
    List.lookup "response" witnessRecord.standard_logging_data =
      some (JVal.obj [("ok", JVal.bool true)]) :=
  ⟨rfl, rfl, rfl, rfl⟩

/-- C6 (amended): the literal composition `sanitize(sanitize(x))` fails for
every valid input, because the first run pops `error_str` /
`error_information` out of the record while `WeaveLogData` requires them, so
the second run ends in a pydantic `ValidationError`; the cleaning pipeline on
the `standard_logging_data` mapping itself, however, is idempotent: re-running
it on an already-cleaned mapping returns the mapping unchanged (with the
already-extracted error fields now `None`). -/
theorem claim_C6_idempotent_core {sld0 : List (String × JVal)} {r : SLDResult}
    (h : prepare_data_core sld0 = Except.ok r) :
    prepare_data_core r.cleaned =
      Except.ok { cleaned := r.cleaned, call_type := r.call_type,
                  error_str := none, error_information := none,
                  response := r.response } :=
  prepare_data_core_fixed_point h

/-- C6 witness at a concrete valid input. -/
theorem claim_C6_witness :
    prepare_data_core witnessSld = Except.ok witnessCore ∧
    prepare_data_core witnessCore.cleaned =
      Except.ok { cleaned := witnessCore.cleaned,
                  call_type := witnessCore.call_type,
                  error_str := none, error_information := none,
                  response := witnessCore.response } :=
  ⟨rfl, @claim_C6_idempotent_core witnessSld witnessCore rfl⟩

/-- C6 counterexample: a concrete valid input on which sanitization succeeds,
yet sanitizing the sanitized record fails with `ValidationError` — so
`sanitize(sanitize(x)) = sanitize(x)` is false there. -/
theorem claim_C6_counterexample :
    _prepare_data witnessKwargs = Except.ok witnessRecord ∧
    _prepare_data [("standard_logging_data",
        JVal.obj witnessRecord.standard_logging_data)] =
      Except.error PyErr.validationError ∧
    (Except.error PyErr.validationError : Except PyErr WeaveLogData) ≠
      Except.ok witnessRecord :=
  ⟨rfl, rfl, fun he => Except.noConfusion he⟩
